import Mathlib

/-!
Verification of the film-breakdown orchestration core
(`src/core/analyzer.py` of ggvfx/film-breakdown-assistant).

The analyzer is shallowly embedded: generation requests are modelled as
oracle inputs (the parsed-JSON answer the client would return, with the
Failure sentinel `None` modelled as `Option.none`), Python dictionaries
holding scene data are modelled as records over the keys the analyzer
touches, and every Python statement that can raise is modelled in the
`Except PyErr` monad.
-/

deriving instance DecidableEq for Except

/-- Python exceptions that can escape the analyzer code paths we model. -/
inductive PyErr where
  | keyError
  | attributeError
  | indexError
  | typeError
  | valueError
deriving DecidableEq, Repr

/-- One element dictionary produced by an extraction pass.  The analyzer
only ever reads the keys `name`, `category` and `count`; a missing key is
`none`.  (Values of non-string JSON type are outside this model.) -/
structure ElemDict where
  name : Option String
  category : Option String
  count : Option String
deriving DecidableEq, Repr

/-- `self.master_history`: a Python dict mapping upper-cased category to a
set of upper-cased names, modelled as an insertion-ordered association
list whose second components have set semantics (no duplicates). -/
abbrev History := List (String × List String)

/-- Python str.upper() over the character list (ASCII case mapping), kept
kernel-computable. -/
def pyUpper (s : String) : String := ⟨s.data.map Char.toUpper⟩

/-- Python str.strip(): drop leading and trailing whitespace, kept
kernel-computable. -/
def pyStrip (s : String) : String :=
  ⟨((s.data.dropWhile Char.isWhitespace).reverse.dropWhile
      Char.isWhitespace).reverse⟩

/-- Python `set.add`: append the name unless already present. -/
def setAdd (s : List String) (x : String) : List String :=
  if x ∈ s then s else s ++ [x]

/-- Adds one (category, name) pair to the history dict, creating the
category entry if absent (lines 257-259 of analyzer.py). -/
def histInsert (h : History) (cat name : String) : History :=
  match h with
  | [] => [(cat, [name])]
  | (c, s) :: rest =>
      if c = cat then (c, setAdd s name) :: rest
      else (c, s) :: histInsert rest cat name

/-- Looks a category up in the history dict. -/
def histLookup (h : History) (cat : String) : Option (List String) :=
  match h with
  | [] => none
  | (c, s) :: rest => if c = cat then some s else histLookup rest cat

/-- `_update_history` (analyzer.py lines 252-259): for each element, read
el[category] and el[name] (KeyError when absent), upper-case both, and add
the name to the set stored under the category. -/
def update_history : History → List ElemDict → Except PyErr History
  | h, [] => .ok h
  | h, el :: els =>
      match el.category with
      | none => .error .keyError
      | some cat =>
          match el.name with
          | none => .error .keyError
          | some nm =>
              update_history (histInsert h (pyUpper cat) (pyUpper nm)) els

/-- Insertion sort step for the sorted() call in the summary. -/
def insertSorted (x : String) : List String → List String
  | [] => [x]
  | y :: ys => if x ≤ y then x :: y :: ys else y :: insertSorted x ys

/-- Python sorted() on a list of strings. -/
def sortStrings (l : List String) : List String := l.foldr insertSorted []

/-- `_get_history_summary` (analyzer.py lines 261-266). -/
def get_history_summary (h : History) : String :=
  let lines := h.map (fun p =>
    "CATEGORY " ++ p.1 ++ ": " ++ String.intercalate ", " (sortStrings p.2))
  if lines.isEmpty then "CATALOG EMPTY." else String.intercalate "\n" lines

/-- A parsed JSON value, as far as flag severities are concerned.  A JSON
float is carried as an exact rational. -/
inductive JVal where
  | jint (n : Int)
  | jnum (q : ℚ)
  | jstr (s : String)
  | jbool (b : Bool)
  | jnull
  | jlist
deriving DecidableEq, Repr

/-- Truncation toward zero, the behaviour of Python int() on a float.
Stated so that it does not depend on the rounding convention of `/`. -/
def ratTrunc (q : ℚ) : Int :=
  if 0 ≤ q.num then (q.num / (q.den : Int)) else -((-q.num) / (q.den : Int))

/-- Digit-string accumulator for Python int() on strings. -/
def digitsToNat? (cs : List Char) : Option Nat :=
  if cs.isEmpty then none
  else cs.foldl (fun acc c =>
    match acc with
    | none => none
    | some n => if c.isDigit then some (n * 10 + (c.toNat - 48)) else none)
    (some 0)

/-- Python int() applied to a string: surrounding whitespace is stripped,
an optional sign is allowed, then ASCII digits; anything else raises
ValueError. -/
def pyIntOfString (s : String) : Except PyErr Int :=
  let t := pyStrip s
  match t.data with
  | '+' :: rest =>
      match digitsToNat? rest with
      | some n => .ok (Int.ofNat n)
      | none => .error .valueError
  | '-' :: rest =>
      match digitsToNat? rest with
      | some n => .ok (-(Int.ofNat n))
      | none => .error .valueError
  | cs =>
      match digitsToNat? cs with
      | some n => .ok (Int.ofNat n)
      | none => .error .valueError

/-- Python int() on a JSON value: ints pass through, floats truncate
toward zero, strings parse, bools become 0/1, null and lists raise. -/
def pyInt : JVal → Except PyErr Int
  | .jint n => .ok n
  | .jnum q => .ok (ratTrunc q)
  | .jstr s => pyIntOfString s
  | .jbool b => .ok (if b then 1 else 0)
  | .jnull => .error .typeError
  | .jlist => .error .typeError

/-- `ReviewFlag` (models.py lines 39-43): severity is validated to lie in
1..3 by the pydantic Field constraint. -/
structure ReviewFlag where
  flag_type : String
  note : String
  severity : Int
deriving DecidableEq, Repr

/-- One entry of the review_flags list of the flag-scan response, when the
entry is a dict: the three keys the code reads, each possibly absent. -/
structure FlagDict where
  flag_type : Option JVal
  note : Option JVal
  severity : Option JVal
deriving DecidableEq, Repr

/-- An entry of the review_flags list: a dict, or any non-dict JSON value
(on which f.get raises AttributeError inside the per-entry try block). -/
inductive FlagItem where
  | dict (d : FlagDict)
  | nondict
deriving DecidableEq, Repr

/-- The flag-scan response dict; review_flags is `none` when the key is
absent (the code then defaults to the empty list). -/
structure FlagResponse where
  review_flags : Option (List FlagItem)
deriving DecidableEq, Repr

/-- The per-entry body of the loop in `run_flag_pass` (analyzer.py lines
242-249): apply the .get defaults, coerce severity with int(), construct
the pydantic ReviewFlag; any exception drops just this entry. -/
def validateFlag (d : FlagDict) : Option ReviewFlag :=
  let ft := d.flag_type.getD (.jstr "GENERAL")
  let nt := d.note.getD (.jstr "")
  let sv := d.severity.getD (.jint 1)
  match pyInt sv with
  | .error _ => none
  | .ok n =>
      match ft, nt with
      | .jstr fs, .jstr ns =>
          if 1 ≤ n ∧ n ≤ 3 then some ⟨fs, ns, n⟩ else none
      | _, _ => none

/-- The element-summary comprehension at analyzer.py line 236: raises
KeyError when an element lacks the category or name key. -/
def formatElems (elements : List ElemDict) : Except PyErr String := do
  let lines ← elements.mapM (fun e => do
    let c ← match e.category with
            | some c => Except.ok c
            | none => Except.error PyErr.keyError
    let n ← match e.name with
            | some n => Except.ok n
            | none => Except.error PyErr.keyError
    pure ("- " ++ c ++ ": " ++ n))
  pure (String.intercalate "\n" lines)

/-- The whole entry loop of `run_flag_pass`: each entry is validated on
its own inside a try block, so a failing entry is dropped without
affecting the others. -/
def flagsFromItems (items : List FlagItem) : List ReviewFlag :=
  items.filterMap (fun it =>
    match it with
    | .dict d => validateFlag d
    | .nondict => none)

/-- `run_flag_pass` (analyzer.py lines 234-250).  The response argument is
the parsed JSON the client returned, `none` being the Failure sentinel; on
that sentinel `response.get` raises AttributeError (line 241), which
nothing in the function catches. -/
def run_flag_pass (elements : List ElemDict) (response : Option FlagResponse) :
    Except PyErr (List ReviewFlag) := do
  let _ ← formatElems elements
  match response with
  | none => .error .attributeError
  | some r => .ok (flagsFromItems (r.review_flags.getD []))

/-- One continuity-note entry of a continuity response list: a dict (with
the keys the code probes, each possibly absent or empty), a bare string,
or any other JSON value (which the loop skips). -/
inductive CNote where
  | ndict (item_name item resolved_specificity specificity_mapping
           note call_out message : Option String)
  | nstr (s : String)
  | nother
deriving DecidableEq, Repr

/-- The continuity_notes value of a continuity response: a list or some
other JSON shape (which the isinstance check discards). -/
inductive CNotesVal where
  | vlist (l : List CNote)
  | vother
deriving DecidableEq, Repr

/-- A continuity response dict; continuity_notes is `none` when absent. -/
structure ContRes where
  continuity_notes : Option CNotesVal
deriving DecidableEq, Repr

/-- The notes list one continuity request contributes (analyzer.py lines
211-216): the Failure sentinel, a missing key, and a non-list value all
contribute the empty list. -/
def contList (res : Option ContRes) : List CNote :=
  match res with
  | none => []
  | some r =>
      match r.continuity_notes with
      | some (.vlist l) => l
      | _ => []

/-- Python `a or b or ...` over .get results, where None and the empty
string are falsy: the first present non-empty string, else the default. -/
def firstTruthy : List (Option String) → String → String
  | [], dflt => dflt
  | none :: rest, dflt => firstTruthy rest dflt
  | some s :: rest, dflt => if s = "" then firstTruthy rest dflt else s

/-- The per-note rendering of the loop at analyzer.py lines 222-230. -/
def renderNote : CNote → Option String
  | .ndict item_name item spec specMap note call_out message =>
      let name := firstTruthy [item_name, item] "Unknown"
      let sp := firstTruthy [spec, specMap] "N/A"
      let nt := firstTruthy [note, call_out, message] ""
      some (name ++ " -> " ++ sp ++ ": " ++ nt)
  | .nstr s => some s
  | .nother => none

/-- `run_continuity_pass` (analyzer.py lines 200-232): combine the two
request results, render each entry, join with newlines; an empty combined
list short-circuits to the empty string. -/
def run_continuity_pass (resA resB : Option ContRes) : String :=
  let notes := contList resA ++ contList resB
  if notes.isEmpty then ""
  else String.intercalate "\n" (notes.filterMap renderNote)

/-- A scene dictionary, restricted to the keys the analyzer reads or
writes.  The parser supplies every metadata field; elements, flags and
notes start out as the empty defaults the .get calls would produce. -/
structure SceneRec where
  scene_number : String
  scene_index : Int
  pages_whole : Int
  pages_eighths : Int
  raw_text : String
  set_name : String
  day_night : String
  int_ext : String
  synopsis : String
  description : String
  elements : List ElemDict
  continuity_notes : String
  review_flags : List ReviewFlag
deriving DecidableEq, Repr

/-- The parsed JSON of a successful, truthy core-pass response, restricted
to the keys whose merge into the scene dict the analyzer later depends on.
A field is `none` when the response dict lacks that key.  The Failure
sentinel and a falsy (empty) response dict are both modelled by the
surrounding `Option` being `none`, since `if core_result:` treats them
identically (analyzer.py line 177). -/
structure CoreResult where
  synopsis : Option String
  description : Option String
  elements : Option (List ElemDict)
  pages_whole : Option Int
  pages_eighths : Option Int
  scene_number : Option String
  scene_index : Option Int
deriving DecidableEq, Repr

/-- `scene.update(core_result)` (analyzer.py line 179): every key present
in the response overwrites the scene dict. -/
def updateFromCore (sc : SceneRec) (c : CoreResult) : SceneRec :=
  { sc with
    synopsis := c.synopsis.getD sc.synopsis
    description := c.description.getD sc.description
    elements := c.elements.getD sc.elements
    pages_whole := c.pages_whole.getD sc.pages_whole
    pages_eighths := c.pages_eighths.getD sc.pages_eighths
    scene_number := c.scene_number.getD sc.scene_number
    scene_index := c.scene_index.getD sc.scene_index }

/-- Modelled from the spec: the static category-to-pass table
`PASS_1_CATEGORIES` is imported by analyzer.py from src/core/models.py but
is absent from the given sources; section 4.1 assigns cast, background and
stunts to the core pass. -/
def PASS_1_CATEGORIES : List String :=
  ["Cast Members", "Background Actors", "Stunts"]

/-- Modelled from the spec: `PASS_2_CATEGORIES`, the set pass (vehicles,
art department, greenery, set dressing, mechanical effects). -/
def PASS_2_CATEGORIES : List String :=
  ["Vehicles", "Art Department", "Greenery", "Set Dressing",
   "Mechanical Effects"]

/-- Modelled from the spec: `PASS_3_CATEGORIES`, the action pass (props,
special effects, wardrobe, makeup, animals, labor, VFX). -/
def PASS_3_CATEGORIES : List String :=
  ["Props", "Special Effects", "Wardrobe", "Makeup/Hair", "Animals",
   "Additional Labor", "Visual Effects"]

/-- Modelled from the spec: `PASS_4_CATEGORIES`, the gear pass (camera,
music, sound, equipment, misc). -/
def PASS_4_CATEGORIES : List String :=
  ["Camera", "Music", "Sound", "Special Equipment", "Miscellaneous"]

/-- The per-scene oracle: the parsed-JSON answers the generative client
returns for each request the analyzer may issue for this scene, with the
Failure sentinel None as `none`.  For the three technical passes the two
no-contribution shapes (Failure, and a dict without an elements key) are
collapsed into `none`, since `if res and "elements" in res` treats them
identically (analyzer.py line 187). -/
structure SceneOracle where
  core : Option CoreResult
  setR : Option (List ElemDict)
  actionR : Option (List ElemDict)
  gearR : Option (List ElemDict)
  contA : Option ContRes
  contB : Option ContRes
  flag : Option FlagResponse
deriving Repr

/-- `_process_single_scene` (analyzer.py lines 91-197): capture the
original parser math, issue the core pass and the technical passes that
have at least one selected category, merge, and restore the metadata; a
falsy core result abandons the scene (returns None). -/
def processSingleScene (categories : List String) (scene : SceneRec)
    (o : SceneOracle) : Option SceneRec :=
  let active_p2 := categories.filter (· ∈ PASS_2_CATEGORIES)
  let active_p3 := categories.filter (· ∈ PASS_3_CATEGORIES)
  let active_p4 := categories.filter (· ∈ PASS_4_CATEGORIES)
  let set_result : Option (List ElemDict) :=
    if active_p2.isEmpty then some [] else o.setR
  let action_result : Option (List ElemDict) :=
    if active_p3.isEmpty then some [] else o.actionR
  let gear_result : Option (List ElemDict) :=
    if active_p4.isEmpty then some [] else o.gearR
  match o.core with
  | none => none
  | some c =>
      let sc1 := updateFromCore scene c
      let all_elements :=
        c.elements.getD [] ++ set_result.getD [] ++
        action_result.getD [] ++ gear_result.getD []
      let sc2 := { sc1 with elements := all_elements }
      some { sc2 with
        pages_whole := scene.pages_whole
        pages_eighths := scene.pages_eighths
        scene_number := scene.scene_number
        scene_index := scene.scene_index }

/-- `run_breakdown` (analyzer.py lines 75-88): gather preserves order, and
the None results of abandoned scenes are filtered out. -/
def run_breakdown (categories : List String)
    (scenes : List (SceneRec × SceneOracle)) : List SceneRec :=
  (scenes.map (fun p => processSingleScene categories p.1 p.2)).filterMap id

/-- Python truthiness of an optional string bound: None and the empty
string are falsy. -/
def truthyOpt : Option String → Bool
  | none => false
  | some s => s ≠ ""

/-- `str(bound).strip().upper() if bound else None` (analyzer.py lines
274-275). -/
def normBound : Option String → Option String
  | none => none
  | some s => if s = "" then none else some (pyUpper (pyStrip s))

/-- The loop condition `if bound_str and current_num == bound_str`: an
absent or empty bound string never matches. -/
def matchesB (t : Option String) (k : String) : Bool :=
  match t with
  | none => false
  | some t => t ≠ "" && k = t

/-- The scan loop of `_filter_scenes` (analyzer.py lines 281-286): walk
the normalized scene numbers once, recording the latest start match index
and one past the latest end match index. -/
def scanLoop (pS pE : String → Bool) :
    List String → Nat → Nat × Nat → Nat × Nat
  | [], _, se => se
  | k :: ks, i, (s, e) =>
      scanLoop pS pE ks (i + 1)
        ((if pS k then i else s), (if pE k then i + 1 else e))

/-- Python list slicing l[s:e] for 0 <= s, e. -/
def pySlice (l : List α) (s e : Nat) : List α := (l.drop s).take (e - s)

/-- `str(s["scene_number"]).strip().upper()`. -/
def sceneKey (sc : SceneRec) : String := pyUpper (pyStrip sc.scene_number)

/-- `_filter_scenes` (analyzer.py lines 268-288), generic in how a scene
number is read off a list entry. -/
def filterByKey (key : α → String) (l : List α)
    (start_num end_num : Option String) : List α :=
  if truthyOpt start_num = false ∧ truthyOpt end_num = false then l
  else
    let sS := normBound start_num
    let eS := normBound end_num
    let keys := l.map key
    let se := scanLoop (matchesB sS) (matchesB eS) keys 0 (0, keys.length)
    pySlice l se.1 se.2

/-- `_filter_scenes` applied to a plain scene list. -/
def filter_scenes (scenes : List SceneRec) (start_num end_num : Option String) :
    List SceneRec :=
  filterByKey sceneKey scenes start_num end_num

/-- The configuration fields `run_full_pipeline` consults. -/
structure Config where
  use_continuity_agent : Bool
  use_flag_agent : Bool
deriving Repr

/-- One iteration of the scene loop of `run_full_pipeline` (analyzer.py
lines 44-71): harvest (indexing the possibly-empty harvest list), run
continuity when enabled, update the history, run the flag scan when
enabled.  Returns the updated history together with the enriched scene, or
the first uncaught exception. -/
def processOne (cfg : Config) (categories : List String) (hist : History)
    (p : SceneRec × SceneOracle) : Except PyErr (History × SceneRec) := do
  let cur ← match run_breakdown categories [p] with
            | [] => Except.error PyErr.indexError
            | c :: _ => Except.ok c
  let cur := if cfg.use_continuity_agent then
      { cur with continuity_notes := run_continuity_pass p.2.contA p.2.contB }
    else cur
  let hist2 ← update_history hist cur.elements
  if cfg.use_flag_agent then do
    let flags ← run_flag_pass cur.elements p.2.flag
    pure (hist2, { cur with review_flags := flags })
  else
    pure (hist2, cur)

/-- The scene loop of `run_full_pipeline`, threading the history and
accumulating the processed scenes in order. -/
def pipelineLoop (cfg : Config) (categories : List String) :
    History → List (SceneRec × SceneOracle) →
    Except PyErr (List SceneRec × History)
  | h, [] => .ok ([], h)
  | h, p :: ps => do
      let r ← processOne cfg categories h p
      let rest ← pipelineLoop cfg categories r.1 ps
      .ok (r.2 :: rest.1, rest.2)

/-- `run_full_pipeline` (analyzer.py lines 29-73) for an analyzer whose
history starts empty (a freshly constructed ScriptAnalyzer): filter the
scene list, then process the surviving scenes strictly sequentially.  The
final history is returned alongside the output list to make the mutated
`self.master_history` observable. -/
def run_full_pipeline (cfg : Config) (categories : List String)
    (scenes : List (SceneRec × SceneOracle))
    (from_scene to_scene : Option String) :
    Except PyErr (List SceneRec × History) :=
  pipelineLoop cfg categories []
    (filterByKey (fun p => sceneKey p.1) scenes from_scene to_scene)

/-- The index of the last entry satisfying p, the quantity the scan loop
of `_filter_scenes` actually computes for each bound (the loop overwrites
its index on every match, so the final assignment wins). -/
def lastMatch (p : String → Bool) : List String → Option Nat
  | [] => none
  | k :: ks =>
      match lastMatch p ks with
      | some j => some (j + 1)
      | none => if p k then some 0 else none

/-- The index of the first entry satisfying p; used only to state the
reading of the range-filter claim in which the from-bound selects the
first match. -/
def firstMatch (p : String → Bool) : List String → Option Nat
  | [] => none
  | k :: ks => if p k then some 0 else (firstMatch p ks).map (· + 1)

/-- Range filter as the claim for the from-bound words it: start index at
the first match of from_identifier, end index one past the last match of
to_identifier, with the same defaults as the source. -/
def filter_scenes_claimC4 (scenes : List SceneRec)
    (start_num end_num : Option String) : List SceneRec :=
  if truthyOpt start_num = false ∧ truthyOpt end_num = false then scenes
  else
    let keys := scenes.map sceneKey
    let s := (firstMatch (matchesB (normBound start_num)) keys).getD 0
    let e := match lastMatch (matchesB (normBound end_num)) keys with
             | some j => j + 1
             | none => keys.length
    pySlice scenes s e

/-- Membership of a name in the set a history stores under a category. -/
def histMem (h : History) (cat name : String) : Prop :=
  name ∈ (histLookup h cat).getD []

instance (h : History) (c n : String) : Decidable (histMem h c n) := by
  unfold histMem; infer_instance

/-- The elements contributed to the merge by one technical pass: nothing
when the pass has no selected category or the response has no usable
elements list, the returned list otherwise. -/
def techContrib (categories passCats : List String)
    (r : Option (List ElemDict)) : List ElemDict :=
  if (categories.filter (· ∈ passCats)).isEmpty then [] else r.getD []

/-- The element list of a possibly-abandoned scene result. -/
def elementsOf : Option SceneRec → List ElemDict
  | none => []
  | some sc => sc.elements

/-- The final history of a pipeline run, when the run did not raise. -/
def pipeHist : Except PyErr (List SceneRec × History) → History
  | .ok r => r.2
  | .error _ => []

/-- A parser-produced scene record with the given number and index. -/
def mkScene (num : String) (idx : Int) : SceneRec :=
  { scene_number := num
    scene_index := idx
    pages_whole := 1
    pages_eighths := 2
    raw_text := "INT. BANK VAULT - DAY"
    set_name := "BANK VAULT"
    day_night := "DAY"
    int_ext := "INT"
    synopsis := ""
    description := ""
    elements := []
    continuity_notes := ""
    review_flags := [] }

/-- An oracle on which every request returns the Failure sentinel. -/
def oracleAllFail : SceneOracle :=
  { core := none, setR := none, actionR := none, gearR := none
    contA := none, contB := none, flag := none }

/-- The harvested duffel-bags prop of the history scenario. -/
def duffelEl : ElemDict :=
  { name := some "DUFFEL BAGS", category := some "Props", count := some "2" }

/-- A core-pass response harvesting the duffel bags. -/
def coreDuffel : CoreResult :=
  { synopsis := some "Bags packed"
    description := none
    elements := some [duffelEl]
    pages_whole := none
    pages_eighths := none
    scene_number := none
    scene_index := none }

/-- An oracle whose core pass harvests the duffel bags and whose other
requests are never consulted. -/
def oracleDuffel : SceneOracle :=
  { core := some coreDuffel
    setR := none, actionR := none, gearR := none
    contA := none, contB := none, flag := none }

/-- The scene the merge produces from `oracleDuffel` on scene 1. -/
def outDuffel : SceneRec :=
  { mkScene "1" 1 with synopsis := "Bags packed", elements := [duffelEl] }

/-- The two-scene history run of the claimed scenario: both scenes harvest
PROPS / DUFFEL BAGS, processed strictly sequentially with the continuity
and flag agents disabled. -/
def runTwoDuffel (id1 id2 : String) : Except PyErr (List SceneRec × History) :=
  run_full_pipeline { use_continuity_agent := false, use_flag_agent := false }
    ["Props"] [(mkScene id1 1, oracleDuffel), (mkScene id2 2, oracleDuffel)]
    none none

/-- The continuity response of the Observer request in the C3 scenario. -/
def obsResB : ContRes :=
  { continuity_notes := some (.vlist [.nstr "MIRROR now shattered"]) }

/-- The C3 scenario oracle: core succeeds, the Matchmaker request fails,
the Observer request answers, and the flag-scan request fails. -/
def oracleC3 : SceneOracle :=
  { core := some
      { synopsis := some "Vault opened"
        description := none
        elements := some [duffelEl]
        pages_whole := none
        pages_eighths := none
        scene_number := none
        scene_index := none }
    setR := none, actionR := none, gearR := none
    contA := none, contB := some obsResB, flag := none }

/-- The seven-scene list of the range-filter scenario. -/
def ex4Scenes : List SceneRec :=
  [mkScene "1" 1, mkScene "4A" 2, mkScene "5" 3, mkScene "6" 4,
   mkScene "7" 5, mkScene "8" 6, mkScene "9" 7]

/-- A scene list with a duplicated scene number, on which first-match and
last-match semantics of the from-bound differ. -/
def exDupScenes : List SceneRec :=
  [mkScene "5" 1, mkScene "6" 2, mkScene "5" 3, mkScene "7" 4]

/-- A flag entry whose severity is the JSON float 2.7. -/
def floatFlagItem : FlagItem :=
  .dict { flag_type := some (.jstr "SAFETY")
          note := some (.jstr "crane lift")
          severity := some (.jnum (mkRat 27 10)) }

/-- An element whose name is the placeholder string used by the
placeholder-rejection claim, with no count key. -/
def nullEl : ElemDict :=
  { name := some "null", category := some "Props", count := none }

/-- A core-pass response returning the placeholder-named element. -/
def coreNull : CoreResult :=
  { synopsis := none
    description := none
    elements := some [nullEl]
    pages_whole := none
    pages_eighths := none
    scene_number := none
    scene_index := none }

/-- An oracle whose core pass returns the placeholder-named element. -/
def oracleNull : SceneOracle :=
  { core := some coreNull
    setR := none, actionR := none, gearR := none
    contA := none, contB := none, flag := none }

/-- The scene the merge produces from `oracleNull` on scene 1. -/
def outNull : SceneRec := { mkScene "1" 1 with elements := [nullEl] }

/-- A core result that tries to overwrite every parser-computed metadata
field of the scene. -/
def conflictingCore : CoreResult :=
  { synopsis := some "Synopsis"
    description := some "Description"
    elements := some [duffelEl]
    pages_whole := some 99
    pages_eighths := some 7
    scene_number := some "HALLUCINATED"
    scene_index := some 1234 }

/-- An oracle whose core pass answers with `conflictingCore`. -/
def oracleConflict : SceneOracle :=
  { core := some conflictingCore
    setR := none, actionR := none, gearR := none
    contA := none, contB := none, flag := none }

/-- The scene the merge produces from `oracleConflict` on scene 3: the
hallucinated metadata is overwritten back by the restore step. -/
def outConflict : SceneRec :=
  { mkScene "3" 3 with
    synopsis := "Synopsis"
    description := "Description"
    elements := [duffelEl] }

/-- A dict flag entry with all three keys missing. -/
def emptyFlagDict : FlagDict :=
  { flag_type := none, note := none, severity := none }

/-- A flag response whose only entry is the all-missing dict entry. -/
def emptyFlagResp : FlagResponse :=
  { review_flags := some [FlagItem.dict emptyFlagDict] }

/-- A dict flag entry lacking only the flag_type key. -/
def missingTypeDict : FlagDict :=
  { flag_type := none
    note := some (.jstr "near water")
    severity := some (.jint 2) }

/-! Lemmas about the scan loop of the range filter. -/

theorem scanLoop_eq (pS pE : String → Bool) (ks : List String) (i s e : Nat) :
    scanLoop pS pE ks i (s, e) =
      ((match lastMatch pS ks with | some j => i + j | none => s),
       (match lastMatch pE ks with | some j => i + j + 1 | none => e)) := by
  induction ks generalizing i s e with
  | nil => rfl
  | cons k ks ih =>
      simp only [scanLoop, lastMatch]
      rw [ih]
      cases hS : lastMatch pS ks <;> cases hE : lastMatch pE ks <;>
        by_cases hpk : pS k <;> by_cases hpe : pE k <;>
          simp [hS, hE, hpk, hpe, Nat.add_assoc, Nat.add_comm, Nat.add_left_comm]

theorem lastMatch_eq_none_iff (p : String → Bool) (K : List String) :
    lastMatch p K = none ↔ ∀ k ∈ K, p k = false := by
  induction K with
  | nil => simp [lastMatch]
  | cons k ks ih =>
      constructor
      · intro h
        simp only [lastMatch] at h
        cases h2 : lastMatch p ks with
        | some j => rw [h2] at h; cases h
        | none =>
            rw [h2] at h
            by_cases hpk : p k
            · simp [hpk] at h
            · intro a ha
              rcases List.mem_cons.mp ha with rfl | ha2
              · simpa using hpk
              · exact ih.mp h2 a ha2
      · intro hall
        have h2 : lastMatch p ks = none :=
          ih.mpr (fun a ha => hall a (List.mem_cons_of_mem _ ha))
        have hk : p k = false := hall k (List.mem_cons_self _ _)
        simp [lastMatch, h2, hk]

theorem lastMatch_lt_length (p : String → Bool) (K : List String) (j : Nat)
    (h : lastMatch p K = some j) : j < K.length := by
  induction K generalizing j with
  | nil => simp [lastMatch] at h
  | cons k ks ih =>
      simp only [lastMatch] at h
      cases h2 : lastMatch p ks with
      | some j0 =>
          rw [h2] at h
          cases h
          exact Nat.succ_lt_succ (ih j0 h2)
      | none =>
          rw [h2] at h
          by_cases hpk : p k
          · simp only [hpk, if_true] at h
            cases h
            simp only [List.length_cons]
            omega
          · simp [hpk] at h

theorem lastMatch_append (p : String → Bool) (A B : List String) :
    lastMatch p (A ++ B) =
      match lastMatch p B with
      | some j => some (A.length + j)
      | none =>
          match lastMatch p A with
          | some j => some j
          | none => none := by
  induction A with
  | nil =>
      cases h : lastMatch p B <;> simp [lastMatch, h]
  | cons a A ih =>
      simp only [List.cons_append, lastMatch, List.append_eq]
      rw [ih]
      cases hB : lastMatch p B with
      | some j =>
          simp only [List.length_cons]
          exact congrArg some (by omega)
      | none =>
          cases hA : lastMatch p A with
          | some j => rfl
          | none => by_cases hpa : p a <;> simp [hpa]

theorem lastMatch_is_last (p : String → Bool) (K : List String) (j : Nat)
    (h : lastMatch p K = some j) :
    j < K.length ∧ p (K.getD j "") = true ∧
      ∀ j2, j < j2 → j2 < K.length → p (K.getD j2 "") = false := by
  induction K generalizing j with
  | nil => simp [lastMatch] at h
  | cons k ks ih =>
      simp only [lastMatch] at h
      cases h2 : lastMatch p ks with
      | some j0 =>
          rw [h2] at h
          cases h
          obtain ⟨hlt, hget, hafter⟩ := ih j0 h2
          refine ⟨Nat.succ_lt_succ hlt, by simpa using hget, ?_⟩
          intro j2 hgt hlen
          match j2, hgt with
          | j2 + 1, hgt =>
              simpa using hafter j2 (Nat.lt_of_succ_lt_succ hgt)
                (Nat.lt_of_succ_lt_succ hlen)
      | none =>
          rw [h2] at h
          by_cases hpk : p k <;> simp [hpk] at h
          cases h
          refine ⟨Nat.succ_pos _, by simpa using hpk, ?_⟩
          intro j2 hgt hlen
          match j2, hgt with
          | j2 + 1, _ =>
              have hlen2 : j2 < ks.length := by
                simpa using Nat.lt_of_succ_lt_succ hlen
              have : (k :: ks).getD (j2 + 1) "" = ks.getD j2 "" := rfl
              rw [this, List.getD_eq_getElem _ _ hlen2]
              exact (lastMatch_eq_none_iff p ks).mp h2 _ (List.getElem_mem hlen2)

theorem filterByKey_eq {α : Type} (key : α → String) (l : List α)
    (sN eN : Option String) :
    filterByKey key l sN eN =
      if truthyOpt sN = false ∧ truthyOpt eN = false then l
      else
        pySlice l ((lastMatch (matchesB (normBound sN)) (l.map key)).getD 0)
          (match lastMatch (matchesB (normBound eN)) (l.map key) with
           | some j => j + 1
           | none => (l.map key).length) := by
  simp only [filterByKey]
  split
  · rfl
  · rw [scanLoop_eq]
    cases h1 : lastMatch (matchesB (normBound sN)) (l.map key) <;>
      cases h2 : lastMatch (matchesB (normBound eN)) (l.map key) <;>
        simp [h1, h2]

theorem pySlice_map {α β : Type} (f : α → β) (l : List α) (s e : Nat) :
    (pySlice l s e).map f = pySlice (l.map f) s e := by
  simp [pySlice, List.map_take, List.map_drop]

theorem pySlice_subset {α : Type} (l : List α) (s e : Nat) :
    ∀ x ∈ pySlice l s e, x ∈ l := by
  intro x hx
  exact List.drop_subset s l (List.take_subset _ _ hx)

theorem lastMatch_sublist_none (p : String → Bool) (K K2 : List String)
    (hsub : ∀ x ∈ K2, x ∈ K) (h : lastMatch p K = none) :
    lastMatch p K2 = none :=
  (lastMatch_eq_none_iff p K2).mpr
    (fun k hk => (lastMatch_eq_none_iff p K).mp h k (hsub k hk))

theorem lastMatch_slice_start (p : String → Bool) (K : List String) (s e : Nat)
    (h : lastMatch p K = some s) (hne : pySlice K s e ≠ []) :
    lastMatch p (pySlice K s e) = some 0 := by
  have hlt := lastMatch_lt_length p K s h
  have hlenA : (K.take s).length = s := by
    rw [List.length_take]; omega
  have happ := lastMatch_append p (K.take s) (K.drop s)
  rw [List.take_append_drop, h] at happ
  cases hR : lastMatch p (K.drop s) with
  | none =>
      rw [hR] at happ
      cases hA : lastMatch p (K.take s) with
      | none => rw [hA] at happ; cases happ
      | some j =>
          rw [hA] at happ
          cases happ
          have := lastMatch_lt_length p (K.take s) s hA
          omega
  | some j =>
      rw [hR] at happ
      rw [hlenA] at happ
      have hj : j = 0 := by
        have : s = s + j := Option.some.inj happ
        omega
      subst hj
      have happ2 := lastMatch_append p (pySlice K s e) ((K.drop s).drop (e - s))
      rw [show pySlice K s e ++ (K.drop s).drop (e - s) = K.drop s by
            simp only [pySlice]; exact List.take_append_drop (e - s) (K.drop s),
          hR] at happ2
      cases hB : lastMatch p ((K.drop s).drop (e - s)) with
      | some j3 =>
          rw [hB] at happ2
          have h0 : (0 : Nat) = (pySlice K s e).length + j3 := Option.some.inj happ2
          have : (pySlice K s e).length = 0 := by omega
          exact absurd (List.length_eq_zero.mp this) hne
      | none =>
          rw [hB] at happ2
          cases hK2 : lastMatch p (pySlice K s e) with
          | none => rw [hK2] at happ2; cases happ2
          | some j4 =>
              rw [hK2] at happ2
              cases happ2
              rfl

theorem lastMatch_slice_end (p : String → Bool) (K : List String) (s m : Nat)
    (h : lastMatch p K = some m) (hs : s ≤ m) :
    lastMatch p (pySlice K s (m + 1)) = some (m - s) ∧
      (pySlice K s (m + 1)).length = m + 1 - s := by
  have hlt := lastMatch_lt_length p K m h
  have hsK : s ≤ K.length := by omega
  have hlenA : (K.take s).length = s := by
    rw [List.length_take]; omega
  have hlen2 : (pySlice K s (m + 1)).length = m + 1 - s := by
    simp only [pySlice, List.length_take, List.length_drop]
    omega
  refine ⟨?_, hlen2⟩
  have happ := lastMatch_append p (K.take s) (K.drop s)
  rw [List.take_append_drop, h, hlenA] at happ
  cases hR : lastMatch p (K.drop s) with
  | none =>
      rw [hR] at happ
      cases hA : lastMatch p (K.take s) with
      | none => rw [hA] at happ; cases happ
      | some j =>
          rw [hA] at happ
          cases happ
          have := lastMatch_lt_length p (K.take s) m hA
          omega
  | some j =>
      rw [hR] at happ
      have hj : j = m - s := by
        have : m = s + j := Option.some.inj happ
        omega
      subst hj
      have happ2 :=
        lastMatch_append p (pySlice K s (m + 1)) ((K.drop s).drop (m + 1 - s))
      rw [show pySlice K s (m + 1) ++ (K.drop s).drop (m + 1 - s) = K.drop s by
            simp only [pySlice]; exact List.take_append_drop (m + 1 - s) (K.drop s),
          hR] at happ2
      cases hB : lastMatch p ((K.drop s).drop (m + 1 - s)) with
      | some j3 =>
          rw [hB, hlen2] at happ2
          have : m - s = m + 1 - s + j3 := Option.some.inj happ2
          omega
      | none =>
          rw [hB] at happ2
          cases hK2 : lastMatch p (pySlice K s (m + 1)) with
          | none => rw [hK2] at happ2; cases happ2
          | some j4 =>
              rw [hK2] at happ2
              cases happ2
              rfl

theorem filterByKey_idem {α : Type} (key : α → String) (l : List α)
    (sN eN : Option String) :
    filterByKey key (filterByKey key l sN eN) sN eN =
      filterByKey key l sN eN := by
  by_cases hguard : truthyOpt sN = false ∧ truthyOpt eN = false
  · rw [filterByKey_eq key l, if_pos hguard, filterByKey_eq, if_pos hguard]
  · have hfil := filterByKey_eq key l sN eN
    rw [if_neg hguard] at hfil
    set pS := matchesB (normBound sN) with hpSdef
    set pE := matchesB (normBound eN) with hpEdef
    set K := l.map key with hKdef
    set s := (lastMatch pS K).getD 0 with hsdef
    set e := (match lastMatch pE K with
              | some j => j + 1
              | none => K.length) with hedef
    rw [hfil, filterByKey_eq, if_neg hguard]
    have hK2 : (pySlice l s e).map key = pySlice K s e := pySlice_map key l s e
    rw [hK2]
    by_cases hne : pySlice K s e = []
    · have hrnil : pySlice l s e = [] := by
        have := congrArg List.length hK2
        rw [hne] at this
        simpa using List.length_eq_zero.mp (by simpa using this)
      rw [hrnil]
      simp [pySlice]
    · have hs0 : (lastMatch pS (pySlice K s e)).getD 0 = 0 := by
        cases hS : lastMatch pS K with
        | none =>
            rw [lastMatch_sublist_none pS K _ (pySlice_subset K s e) hS]
            rfl
        | some j =>
            have hsj : s = j := by rw [hsdef, hS]; rfl
            rw [hsj] at hne ⊢
            rw [lastMatch_slice_start pS K j e hS hne]
            rfl
      have he0 : (match lastMatch pE (pySlice K s e) with
                  | some j => j + 1
                  | none => (pySlice K s e).length) =
          (pySlice K s e).length := by
        cases hE : lastMatch pE K with
        | none =>
            rw [lastMatch_sublist_none pE K _ (pySlice_subset K s e) hE]
        | some m =>
            have hem : e = m + 1 := by rw [hedef, hE]
            by_cases hsm : s ≤ m
            · obtain ⟨h1, h2⟩ := lastMatch_slice_end pE K s m hE hsm
              rw [hem] at hne ⊢
              rw [h1, h2]
              show m - s + 1 = m + 1 - s
              omega
            · exfalso
              apply hne
              rw [hem]
              simp only [pySlice]
              have : m + 1 - s = 0 := by omega
              rw [this, List.take_zero]
      have hlen : (pySlice l s e).length = (pySlice K s e).length := by
        rw [← hK2, List.length_map]
      rw [hs0, he0, ← hlen]
      simp [pySlice]

/-! Lemmas about the history catalog. -/

theorem histLookup_histInsert (h : History) (c n c2 : String) :
    histLookup (histInsert h c n) c2 =
      if c2 = c then some (setAdd ((histLookup h c).getD []) n)
      else histLookup h c2 := by
  induction h with
  | nil =>
      by_cases hc : c = c2
      · subst hc
        simp [histInsert, histLookup, setAdd]
      · simp only [histInsert, histLookup]
        rw [if_neg hc, if_neg (Ne.symm hc)]
  | cons p rest ih =>
      obtain ⟨c0, s0⟩ := p
      by_cases h0 : c0 = c
      · subst h0
        have hIns : histInsert ((c0, s0) :: rest) c0 n =
            (c0, setAdd s0 n) :: rest := by
          simp [histInsert]
        rw [hIns]
        by_cases hc : c0 = c2
        · subst hc
          simp [histLookup]
        · simp [histLookup, hc, Ne.symm hc]
      · have hIns : histInsert ((c0, s0) :: rest) c n =
            (c0, s0) :: histInsert rest c n := by
          simp [histInsert, h0]
        rw [hIns]
        by_cases hc : c0 = c2
        · subst hc
          simp [histLookup, h0, Ne.symm h0]
        · simp only [histLookup, if_neg hc]
          rw [ih]
          by_cases hc2 : c2 = c
          · rw [if_pos hc2, if_pos hc2]
            simp [histLookup, h0]
          · rw [if_neg hc2, if_neg hc2]

theorem histMem_insert (h : History) (c n c2 n2 : String)
    (hm : histMem h c2 n2) : histMem (histInsert h c n) c2 n2 := by
  unfold histMem at hm ⊢
  rw [histLookup_histInsert]
  by_cases hc : c2 = c
  · subst hc
    rw [if_pos rfl]
    simp only [Option.getD_some]
    unfold setAdd
    split
    · exact hm
    · exact List.mem_append_left _ hm
  · rw [if_neg hc]
    exact hm

theorem histMem_insert_self (h : History) (c n : String) :
    histMem (histInsert h c n) c n := by
  unfold histMem
  rw [histLookup_histInsert, if_pos rfl]
  simp only [Option.getD_some]
  unfold setAdd
  split
  · assumption
  · exact List.mem_append_right _ (List.mem_singleton.mpr rfl)

theorem update_history_mono_upsert (els : List ElemDict) :
    ∀ h h2, update_history h els = .ok h2 →
      (∀ c n, histMem h c n → histMem h2 c n) ∧
      (∀ el ∈ els, ∀ cat nm, el.category = some cat → el.name = some nm →
          histMem h2 (pyUpper cat) (pyUpper nm)) := by
  induction els with
  | nil =>
      intro h h2 hok
      simp only [update_history] at hok
      cases hok
      exact ⟨fun c n hm => hm, fun el hel => absurd hel (List.not_mem_nil el)⟩
  | cons el els ih =>
      intro h h2 hok
      simp only [update_history] at hok
      cases hcat : el.category with
      | none => rw [hcat] at hok; cases hok
      | some cat =>
          rw [hcat] at hok
          cases hnm : el.name with
          | none => rw [hnm] at hok; cases hok
          | some nm =>
              rw [hnm] at hok
              obtain ⟨mono2, ups2⟩ := ih _ _ hok
              constructor
              · intro c n hm
                exact mono2 c n (histMem_insert _ _ _ _ _ hm)
              · intro el2 hel2 cat2 nm2 hc2 hn2
                rcases List.mem_cons.mp hel2 with rfl | htail
                · rw [hcat] at hc2
                  cases hc2
                  rw [hnm] at hn2
                  cases hn2
                  exact mono2 _ _
                    (histMem_insert_self h (pyUpper cat) (pyUpper nm))
                · exact ups2 el2 htail cat2 nm2 hc2 hn2

/-! Lemmas about flag validation. -/

theorem validateFlag_severity_bounds (d : FlagDict) (rf : ReviewFlag)
    (h : validateFlag d = some rf) : 1 ≤ rf.severity ∧ rf.severity ≤ 3 := by
  simp only [validateFlag] at h
  split at h
  · cases h
  · split at h
    · split at h
      · cases h
        simp_all
      · cases h
    · cases h

theorem validateFlag_out_of_range (d : FlagDict) (n : Int)
    (hint : pyInt (d.severity.getD (.jint 1)) = .ok n)
    (hout : ¬(1 ≤ n ∧ n ≤ 3)) : validateFlag d = none := by
  simp only [validateFlag, hint]
  split
  · rw [if_neg hout]
  · rfl

theorem validateFlag_non_coercible (d : FlagDict) (e : PyErr)
    (hint : pyInt (d.severity.getD (.jint 1)) = .error e) :
    validateFlag d = none := by
  simp only [validateFlag, hint]

theorem run_flag_pass_ok (els : List ElemDict) (r : FlagResponse)
    (flags : List ReviewFlag)
    (h : run_flag_pass els (some r) = .ok flags) :
    flags = flagsFromItems (r.review_flags.getD []) := by
  simp only [run_flag_pass, bind, Except.bind] at h
  cases hf : formatElems els with
  | error e => rw [hf] at h; cases h
  | ok s =>
      rw [hf] at h
      cases h
      rfl

/-! Lemmas about the merge step of the multi-pass extractor. -/

theorem processSingleScene_elements (categories : List String) (sc : SceneRec)
    (o : SceneOracle) (c : CoreResult) (out : SceneRec)
    (hc : o.core = some c)
    (h : processSingleScene categories sc o = some out) :
    out.elements =
      c.elements.getD [] ++ techContrib categories PASS_2_CATEGORIES o.setR ++
        techContrib categories PASS_3_CATEGORIES o.actionR ++
        techContrib categories PASS_4_CATEGORIES o.gearR := by
  simp only [processSingleScene, hc] at h
  cases h
  simp only [techContrib]
  by_cases h2 : (categories.filter (· ∈ PASS_2_CATEGORIES)).isEmpty <;>
    by_cases h3 : (categories.filter (· ∈ PASS_3_CATEGORIES)).isEmpty <;>
      by_cases h4 : (categories.filter (· ∈ PASS_4_CATEGORIES)).isEmpty <;>
        simp [h2, h3, h4]

/-! The claims. -/

/-- Claim C1: a scene whose mandatory core extraction request returns the
Failure sentinel is absent from the output list and no exception
propagates out of the orchestrator.  The code violates the second half:
with a single scene whose core request fails, `run_breakdown` returns the
empty list and `harvest_results[0]` (analyzer.py line 51) raises
IndexError, which nothing in `run_full_pipeline` catches.  This theorem
evaluates the orchestrator at that failing input. -/
theorem C1_core_failure_raises_index_error :
    run_full_pipeline { use_continuity_agent := true, use_flag_agent := true }
        ["Props"] [(mkScene "12" 1, oracleAllFail)] none none =
      .error .indexError := by decide

/-- Claim C2 as stated is false on the code: the history catalog stores,
per upper-cased category, only a set of upper-cased names
(`_update_history`, analyzer.py lines 252-259) — no scene identifier is
recorded at all.  Hence no reading of the catalog can return the second
scene's identifier as the citation for PROPS / DUFFEL BAGS: the catalog
after the two-scene run does not depend on the scene identifiers, so runs
with swapped identifiers are indistinguishable. -/
theorem C2_counterexample :
    ¬ ∃ cit : History → String → String → Option String,
        ∀ id1 id2 : String,
          cit (pipeHist (runTwoDuffel id1 id2)) "PROPS" "DUFFEL BAGS" =
            some id2 := by
  rintro ⟨cit, hc⟩
  have h12 := hc "1" "2"
  have h21 := hc "2" "1"
  have heq : pipeHist (runTwoDuffel "1" "2") = pipeHist (runTwoDuffel "2" "1") := by
    decide
  rw [heq] at h12
  rw [h12] at h21
  exact absurd h21 (by decide)

/-- Claim C2 (amended): each harvested element with category and name
present is upserted into the catalog under its upper-cased category, as an
upper-cased name in that category's set; entries are never removed; after
two sequentially processed scenes that both harvest PROPS / DUFFEL BAGS
the catalog holds exactly one name DUFFEL BAGS under PROPS — but no
citation of the harvesting scene is recorded. -/
theorem C2_history_upsert_amended :
    (∀ h els h2, update_history h els = .ok h2 →
        (∀ c n, histMem h c n → histMem h2 c n) ∧
        (∀ el ∈ els, ∀ cat nm, el.category = some cat → el.name = some nm →
            histMem h2 (pyUpper cat) (pyUpper nm))) ∧
    pipeHist (runTwoDuffel "1" "2") = [("PROPS", ["DUFFEL BAGS"])] := by
  constructor
  · intro h els h2 hok
    exact update_history_mono_upsert els h h2 hok
  · decide

/-- Witness for C2_history_upsert_amended: the upsert clause applied to
the empty catalog and the duffel-bags element. -/
theorem C2_history_upsert_amended_witness :
    histMem [("PROPS", ["DUFFEL BAGS"])] (pyUpper "Props")
      (pyUpper "DUFFEL BAGS") :=
  (C2_history_upsert_amended.1 [] [duffelEl] [("PROPS", ["DUFFEL BAGS"])]
      (by decide)).2 duffelEl (by decide) "Props" "DUFFEL BAGS" rfl rfl

/-- Claim C3: a Failure from the continuity stage or the flag-scan stage
degrades to an empty contribution and the scene stays in the output.  The
continuity half holds (either continuity request failing contributes
nothing, the other still produces notes), but the flag half is violated:
on the Failure sentinel `response.get("review_flags", [])` (analyzer.py
line 241) raises AttributeError, which propagates out of the orchestrator
instead of degrading to an empty flag list.  This theorem evaluates the
code at that failing input, together with the surviving continuity half. -/
theorem C3_flag_failure_raises_attribute_error :
    run_full_pipeline { use_continuity_agent := true, use_flag_agent := true }
        ["Props"] [(mkScene "7" 1, oracleC3)] none none =
      .error .attributeError ∧
    run_continuity_pass none (some obsResB) = "MIRROR now shattered" := by
  constructor
  · decide
  · decide

/-- Claim C4 as stated is false on the code: the scan loop of
`_filter_scenes` overwrites the start index on every match of
from_identifier, so the LAST match wins, not the first.  On a list with a
duplicated scene number the code and the claim disagree. -/
theorem C4_counterexample :
    filter_scenes exDupScenes (some "5") (some "7") =
        [mkScene "5" 3, mkScene "7" 4] ∧
    filter_scenes_claimC4 exDupScenes (some "5") (some "7") = exDupScenes ∧
    filter_scenes exDupScenes (some "5") (some "7") ≠
      filter_scenes_claimC4 exDupScenes (some "5") (some "7") := by
  refine ⟨by decide, by decide, by decide⟩

/-- Claim C4 (amended): with no truthy bound the filter returns the full
list; otherwise the start index is the position of the LAST exact
case-insensitive match of from_identifier (default 0) and the end index is
one past the position of the last match of to_identifier (default list
length), and the result is that slice; the concrete scenario from="5",
to="8" over ["1","4A","5","6","7","8","9"] returns ["5","6","7","8"]. -/
theorem C4_range_filter_amended (scenes : List SceneRec)
    (start_num end_num : Option String) :
    (filter_scenes scenes start_num end_num =
      if truthyOpt start_num = false ∧ truthyOpt end_num = false then scenes
      else
        pySlice scenes
          ((lastMatch (matchesB (normBound start_num))
              (scenes.map sceneKey)).getD 0)
          (match lastMatch (matchesB (normBound end_num))
              (scenes.map sceneKey) with
           | some j => j + 1
           | none => (scenes.map sceneKey).length)) ∧
    filter_scenes ex4Scenes (some "5") (some "8") =
      [mkScene "5" 3, mkScene "6" 4, mkScene "7" 5, mkScene "8" 6] :=
  ⟨filterByKey_eq sceneKey scenes start_num end_num, by decide⟩

/-- Claim C5 as stated is false on the code: a flag entry whose severity
is the JSON float 2.7 — a value outside {1,2,3} — is not dropped; Python
int() truncates it to 2 and the entry appears in the output flag list. -/
theorem C5_counterexample :
    run_flag_pass [] (some { review_flags := some [floatFlagItem] }) =
        .ok [{ flag_type := "SAFETY", note := "crane lift", severity := 2 }] ∧
    mkRat 27 10 ≠ 1 ∧ mkRat 27 10 ≠ 2 ∧ mkRat 27 10 ≠ 3 := by
  refine ⟨by decide, by decide, by decide, by decide⟩

/-- Claim C5 (amended): an entry whose severity does not coerce under
Python int() (which truncates floats and parses integer strings) to an
integer in {1,2,3} never appears in the output flag list; it is dropped
individually, without affecting the other entries of the list. -/
theorem C5_severity_validation_amended :
    (∀ els r flags, run_flag_pass els (some r) = Except.ok flags →
        ∀ rf ∈ flags, 1 ≤ rf.severity ∧ rf.severity ≤ 3) ∧
    (∀ d n, pyInt (d.severity.getD (.jint 1)) = .ok n → ¬(1 ≤ n ∧ n ≤ 3) →
        validateFlag d = none) ∧
    (∀ d e, pyInt (d.severity.getD (.jint 1)) = .error e →
        validateFlag d = none) ∧
    (∀ pre post d, validateFlag d = none →
        flagsFromItems (pre ++ FlagItem.dict d :: post) =
          flagsFromItems (pre ++ post)) := by
  refine ⟨?_, ?_, ?_, ?_⟩
  · intro els r flags h rf hrf
    rw [run_flag_pass_ok els r flags h] at hrf
    obtain ⟨it, hit, hv⟩ := List.mem_filterMap.mp hrf
    cases it with
    | dict d => exact validateFlag_severity_bounds d rf hv
    | nondict => cases hv
  · intro d n hint hout
    exact validateFlag_out_of_range d n hint hout
  · intro d e hint
    exact validateFlag_non_coercible d e hint
  · intro pre post d hnone
    simp [flagsFromItems, List.filterMap_append, hnone]

/-- Witness for C5_severity_validation_amended: the bounds clause applied
to a concrete run keeping one valid flag. -/
theorem C5_severity_validation_amended_witness :
    1 ≤ (ReviewFlag.mk "GENERAL" "" 2).severity ∧
      (ReviewFlag.mk "GENERAL" "" 2).severity ≤ 3 :=
  C5_severity_validation_amended.1 []
    { review_flags := some [FlagItem.dict
        { flag_type := none, note := none, severity := some (.jint 2) }] }
    [⟨"GENERAL", "", 2⟩] (by decide) ⟨"GENERAL", "", 2⟩ (by decide)

/-- Claim C6 as stated is false on the code: the merge step of
`_process_single_scene` (analyzer.py lines 176-195) performs no element
validation at all — an element named "null" with no count key is stored
verbatim in the scene's element list, with no count defaulting. -/
theorem C6_counterexample :
    nullEl ∈ elementsOf (processSingleScene ["Props"] (mkScene "1" 1)
        oracleNull) ∧
    nullEl.count ≠ some "1" := by
  refine ⟨by decide, by decide⟩

/-- Claim C6 (amended): no validation happens at the merge boundary.
Every element dict contributed by the core pass or by an active technical
pass is stored verbatim in the scene's element list — placeholder names
included, counts untouched. -/
theorem C6_merge_stores_verbatim_amended (categories : List String)
    (sc : SceneRec) (o : SceneOracle) (c : CoreResult) (out : SceneRec)
    (hc : o.core = some c)
    (h : processSingleScene categories sc o = some out) :
    (∀ el ∈ c.elements.getD [], el ∈ out.elements) ∧
    (∀ el ∈ techContrib categories PASS_2_CATEGORIES o.setR,
        el ∈ out.elements) ∧
    (∀ el ∈ techContrib categories PASS_3_CATEGORIES o.actionR,
        el ∈ out.elements) ∧
    (∀ el ∈ techContrib categories PASS_4_CATEGORIES o.gearR,
        el ∈ out.elements) := by
  rw [processSingleScene_elements categories sc o c out hc h]
  refine ⟨?_, ?_, ?_, ?_⟩ <;> intro el hel <;> simp [hel]

/-- Witness for C6_merge_stores_verbatim_amended: the placeholder-named
element is stored verbatim in the placeholder scenario. -/
theorem C6_merge_stores_verbatim_amended_witness :
    nullEl ∈ outNull.elements :=
  (C6_merge_stores_verbatim_amended ["Props"] (mkScene "1" 1) oracleNull
      coreNull outNull (by decide) (by decide)).1 nullEl (by decide)

/-- Claim C7: for a scene whose core pass succeeds, the final element list
is multiset-equal to the concatenation of the core elements with the
elements each technical pass individually returned, a failing or
elements-less pass contributing nothing, with no deduplication. -/
theorem C7_elements_concat (categories : List String) (sc : SceneRec)
    (o : SceneOracle) (c : CoreResult) (out : SceneRec)
    (hc : o.core = some c)
    (h : processSingleScene categories sc o = some out) :
    out.elements.Perm
      (c.elements.getD [] ++ techContrib categories PASS_2_CATEGORIES o.setR ++
        techContrib categories PASS_3_CATEGORIES o.actionR ++
        techContrib categories PASS_4_CATEGORIES o.gearR) := by
  rw [processSingleScene_elements categories sc o c out hc h]

/-- Witness for C7_elements_concat at the duffel-bags scenario. -/
theorem C7_elements_concat_witness :
    outDuffel.elements.Perm
      (coreDuffel.elements.getD [] ++
        techContrib ["Props"] PASS_2_CATEGORIES oracleDuffel.setR ++
        techContrib ["Props"] PASS_3_CATEGORIES oracleDuffel.actionR ++
        techContrib ["Props"] PASS_4_CATEGORIES oracleDuffel.gearR) :=
  C7_elements_concat ["Props"] (mkScene "1" 1) oracleDuffel coreDuffel
    outDuffel (by decide) (by decide)

/-- Claim C8: range filtering is idempotent — filtering an
already-filtered list again with the same bounds returns it unchanged. -/
theorem C8_range_filter_idempotent (scenes : List SceneRec)
    (start_num end_num : Option String) :
    filter_scenes (filter_scenes scenes start_num end_num) start_num end_num =
      filter_scenes scenes start_num end_num :=
  filterByKey_idem sceneKey scenes start_num end_num

/-- Claim C9: for a scene whose core pass succeeds, the merge copies the
whole core result dict into the scene but then restores the original
pages_whole, pages_eighths, scene_number and scene_index, so those four
parser-computed fields are unchanged even when the response carries
conflicting values for them. -/
theorem C9_parser_math_restored (categories : List String) (sc : SceneRec)
    (o : SceneOracle) (out : SceneRec)
    (h : processSingleScene categories sc o = some out) :
    out.pages_whole = sc.pages_whole ∧
    out.pages_eighths = sc.pages_eighths ∧
    out.scene_number = sc.scene_number ∧
    out.scene_index = sc.scene_index := by
  cases hc : o.core with
  | none =>
      simp only [processSingleScene, hc] at h
      simp at h
  | some c =>
      simp only [processSingleScene, hc] at h
      cases h
      exact ⟨rfl, rfl, rfl, rfl⟩

/-- Witness for C9_parser_math_restored: a core result that tries to
overwrite all four fields is restored. -/
theorem C9_parser_math_restored_witness :
    outConflict.pages_whole = (mkScene "3" 3).pages_whole ∧
    outConflict.pages_eighths = (mkScene "3" 3).pages_eighths ∧
    outConflict.scene_number = (mkScene "3" 3).scene_number ∧
    outConflict.scene_index = (mkScene "3" 3).scene_index :=
  C9_parser_math_restored ["Props"] (mkScene "3" 3) oracleConflict outConflict
    (by decide)

/-- Claim C10: a dict flag entry with missing fields is defaulted rather
than dropped — flag_type defaults to GENERAL, note to the empty string,
severity to 1 — and such an entry is kept in the output flag list. -/
theorem C10_flag_defaults :
    (∀ d : FlagDict, d.flag_type = none →
        validateFlag d =
          validateFlag { d with flag_type := some (.jstr "GENERAL") }) ∧
    (∀ d : FlagDict, d.note = none →
        validateFlag d = validateFlag { d with note := some (.jstr "") }) ∧
    (∀ d : FlagDict, d.severity = none →
        validateFlag d = validateFlag { d with severity := some (.jint 1) }) ∧
    run_flag_pass [] (some emptyFlagResp) =
      .ok [{ flag_type := "GENERAL", note := "", severity := 1 }] := by
  refine ⟨?_, ?_, ?_, by decide⟩ <;> intro d hd <;> cases d <;>
    (cases hd; rfl)

/-- Witness for C10_flag_defaults: the flag_type clause applied to an
entry with a missing flag_type and valid remaining fields. -/
theorem C10_flag_defaults_witness :
    validateFlag missingTypeDict =
      validateFlag { missingTypeDict with flag_type := some (.jstr "GENERAL") } :=
  C10_flag_defaults.1 missingTypeDict rfl
